import Mathlib

set_option autoImplicit false

namespace Gammapy

/-!
Shallow embedding of the `MapDataset` / `MapDatasetOnOff` aggregate of the
gammapy repository.  The excerpt of the repository only contains the test
module `gammapy/datasets/tests/test_map.py`; the implementation file
(`gammapy/datasets/map.py`) and the collaborator libraries (maps, models,
IRFs) are not part of the excerpt, so every operation below is modelled from
the natural-language specification (`spec.md`), with the expected values of
the test module as additional constraints where the spec is silent.
Rationals stand for the floating-point reals of the implementation.
-/

/-- Modelled from the spec: gammapy's Geometry class (absent from the
excerpt) is reduced to its shape data, following section 3: an opaque
immutable key identifying pixelization plus axis set, with structural
equality.  `nE` is the number of energy bins, `nY` and `nX` the spatial
pixel counts. -/
structure Geom where
  nE : Nat
  nY : Nat
  nX : Nat
  deriving DecidableEq, Repr

/-- Modelled from the spec: collapsing the energy axis of a geometry
(section 3, derived geometries: image-collapsed) keeps the spatial grid and
leaves a single energy bin. -/
def Geom.to_image (g : Geom) : Geom :=
  { nE := 1, nY := g.nY, nX := g.nX }

/-- Modelled from the spec: gammapy's Map class (absent from the excerpt),
section 3: a typed N-dimensional array bound to a Geometry.  The data array
is indexed by (energy bin, y pixel, x pixel). -/
structure Map where
  geom : Geom
  data : Nat → Nat → Nat → ℚ

/-- Modelled from the spec: a boolean mask map (section 3: mask_fit and
mask_safe are boolean maps). -/
structure BoolMap where
  geom : Geom
  data : Nat → Nat → Nat → Bool

/-- Modelled from the spec: a good-time-interval table (glossary: set of
valid observation time spans), reduced to its list of (start, stop) pairs. -/
structure GTI where
  intervals : List (ℚ × ℚ)

/-- Total good time: sum of the lengths of the intervals. -/
def GTI.time_sum (g : GTI) : ℚ :=
  (g.intervals.map fun p => p.2 - p.1).sum

/-- Modelled from the spec: BackgroundModel (section 3), a named,
normalizable wrapper around a background rate Map associated with zero or
more dataset names; `norm` scales the background rate multiplicatively when
evaluated. -/
structure BackgroundModel where
  map : Map
  norm : ℚ
  name : String
  datasets_names : List String

/-- Evaluated background rate: `norm` times the underlying map. -/
def BackgroundModel.evaluate (b : BackgroundModel) : Nat → Nat → Nat → ℚ :=
  fun e y x => b.norm * b.map.data e y x

/-- Modelled from the spec: the evaluator attached to one sky-model
component (section 4.1, npred contract).  The component carries a flux per
true-energy bin and a response kernel folding the instrument response
(energy dispersion, with the point-spread convolution absorbed into the
flux field) from true-energy bin to reconstructed-energy bin; components
whose spatial contribution does not intersect the dataset geometry are
flagged as non-contributing. -/
structure SkyEval where
  contributes : Bool
  nETrue : Nat
  flux : Nat → Nat → Nat → ℚ
  kernel : Nat → Nat → ℚ

/-- Modelled from the spec: the MapDataset aggregate (sections 3 and 4.1):
counts, exposure, background model, energy-dispersion and point-spread
blocks, fit/safe masks, good-time-intervals and a list of sky-model
evaluators; any field may be absent, meaning that it does not contribute.
The `edisp` and `psf` fields stand for the whole energy-dispersion and
point-spread map blocks (map plus companion exposure map) for the purpose
of serialization. -/
structure MapDataset where
  name : String
  counts : Option Map
  exposure : Option Map
  background_model : Option BackgroundModel
  edisp : Option Map
  psf : Option Map
  mask_safe : Option BoolMap
  mask_fit : Option BoolMap
  gti : Option GTI
  models : List SkyEval

/-- Modelled from the spec: the MapDatasetOnOff variant (sections 3 and
4.2): counts_off, acceptance and acceptance_off maps next to the base
fields exercised by the on/off tests; it never carries a background
model. -/
structure MapDatasetOnOff where
  name : String
  counts : Option Map
  counts_off : Option Map
  acceptance : Option Map
  acceptance_off : Option Map
  exposure : Option Map
  mask_safe : Option BoolMap
  gti : Option GTI

/-- Modelled from the spec: to_hdulist serialization of a MapDataset
(section 4.1): one data block per populated field, each map block followed
by its companion axis-description block, in the fixed documented order
counts, exposure, background, energy dispersion (map and exposure),
point-spread (map and exposure), mask_safe, mask_fit, gti; absent fields
omit their blocks. -/
def MapDataset.to_hdulist (d : MapDataset) : List String :=
  ["PRIMARY"]
    ++ (if d.counts.isSome then ["COUNTS", "COUNTS_BANDS"] else [])
    ++ (if d.exposure.isSome then ["EXPOSURE", "EXPOSURE_BANDS"] else [])
    ++ (if d.background_model.isSome then ["BACKGROUND", "BACKGROUND_BANDS"] else [])
    ++ (if d.edisp.isSome then
          ["EDISP", "EDISP_BANDS", "EDISP_EXPOSURE", "EDISP_EXPOSURE_BANDS"] else [])
    ++ (if d.psf.isSome then
          ["PSF", "PSF_BANDS", "PSF_EXPOSURE", "PSF_EXPOSURE_BANDS"] else [])
    ++ (if d.mask_safe.isSome then ["MASK_SAFE", "MASK_SAFE_BANDS"] else [])
    ++ (if d.mask_fit.isSome then ["MASK_FIT", "MASK_FIT_BANDS"] else [])
    ++ (if d.gti.isSome then ["GTI"] else [])

/-- Modelled from the spec: to_hdulist serialization of a MapDatasetOnOff
(sections 4.2 and 6): the base blocks in the order of section 4.1 followed
by the on/off specific blocks counts_off, acceptance, acceptance_off, each
with its companion axis block; absent fields omit their blocks. -/
def MapDatasetOnOff.to_hdulist (d : MapDatasetOnOff) : List String :=
  ["PRIMARY"]
    ++ (if d.counts.isSome then ["COUNTS", "COUNTS_BANDS"] else [])
    ++ (if d.exposure.isSome then ["EXPOSURE", "EXPOSURE_BANDS"] else [])
    ++ (if d.mask_safe.isSome then ["MASK_SAFE", "MASK_SAFE_BANDS"] else [])
    ++ (if d.gti.isSome then ["GTI"] else [])
    ++ (if d.counts_off.isSome then ["COUNTS_OFF", "COUNTS_OFF_BANDS"] else [])
    ++ (if d.acceptance.isSome then ["ACCEPTANCE", "ACCEPTANCE_BANDS"] else [])
    ++ (if d.acceptance_off.isSome then
          ["ACCEPTANCE_OFF", "ACCEPTANCE_OFF_BANDS"] else [])

/-- The full ordered block-name list of a fully populated MapDataset. -/
def fullMapDatasetHdus : List String :=
  ["PRIMARY", "COUNTS", "COUNTS_BANDS", "EXPOSURE", "EXPOSURE_BANDS",
   "BACKGROUND", "BACKGROUND_BANDS", "EDISP", "EDISP_BANDS",
   "EDISP_EXPOSURE", "EDISP_EXPOSURE_BANDS", "PSF", "PSF_BANDS",
   "PSF_EXPOSURE", "PSF_EXPOSURE_BANDS", "MASK_SAFE", "MASK_SAFE_BANDS",
   "MASK_FIT", "MASK_FIT_BANDS", "GTI"]

/-- The full ordered block-name list of a fully populated MapDatasetOnOff. -/
def fullOnOffHdus : List String :=
  ["PRIMARY", "COUNTS", "COUNTS_BANDS", "EXPOSURE", "EXPOSURE_BANDS",
   "MASK_SAFE", "MASK_SAFE_BANDS", "GTI", "COUNTS_OFF", "COUNTS_OFF_BANDS",
   "ACCEPTANCE", "ACCEPTANCE_BANDS", "ACCEPTANCE_OFF",
   "ACCEPTANCE_OFF_BANDS"]

theorem sublist_ite {c : Prop} [Decidable c] (l : List String) :
    (if c then l else []).Sublist l := by
  split
  · exact List.Sublist.refl l
  · exact List.nil_sublist l

theorem mapDatasetHdulistSublist (d : MapDataset) :
    d.to_hdulist.Sublist fullMapDatasetHdus := by
  show (["PRIMARY"]
    ++ (if d.counts.isSome then ["COUNTS", "COUNTS_BANDS"] else [])
    ++ (if d.exposure.isSome then ["EXPOSURE", "EXPOSURE_BANDS"] else [])
    ++ (if d.background_model.isSome then ["BACKGROUND", "BACKGROUND_BANDS"] else [])
    ++ (if d.edisp.isSome then
          ["EDISP", "EDISP_BANDS", "EDISP_EXPOSURE", "EDISP_EXPOSURE_BANDS"] else [])
    ++ (if d.psf.isSome then
          ["PSF", "PSF_BANDS", "PSF_EXPOSURE", "PSF_EXPOSURE_BANDS"] else [])
    ++ (if d.mask_safe.isSome then ["MASK_SAFE", "MASK_SAFE_BANDS"] else [])
    ++ (if d.mask_fit.isSome then ["MASK_FIT", "MASK_FIT_BANDS"] else [])
    ++ (if d.gti.isSome then ["GTI"] else [])).Sublist
      (["PRIMARY"] ++ ["COUNTS", "COUNTS_BANDS"] ++ ["EXPOSURE", "EXPOSURE_BANDS"]
        ++ ["BACKGROUND", "BACKGROUND_BANDS"]
        ++ ["EDISP", "EDISP_BANDS", "EDISP_EXPOSURE", "EDISP_EXPOSURE_BANDS"]
        ++ ["PSF", "PSF_BANDS", "PSF_EXPOSURE", "PSF_EXPOSURE_BANDS"]
        ++ ["MASK_SAFE", "MASK_SAFE_BANDS"] ++ ["MASK_FIT", "MASK_FIT_BANDS"]
        ++ ["GTI"])
  exact ((((((((List.Sublist.refl _).append (sublist_ite _)).append
    (sublist_ite _)).append (sublist_ite _)).append (sublist_ite _)).append
    (sublist_ite _)).append (sublist_ite _)).append (sublist_ite _)).append
    (sublist_ite _)

theorem onOffHdulistSublist (d : MapDatasetOnOff) :
    d.to_hdulist.Sublist fullOnOffHdus := by
  show (["PRIMARY"]
    ++ (if d.counts.isSome then ["COUNTS", "COUNTS_BANDS"] else [])
    ++ (if d.exposure.isSome then ["EXPOSURE", "EXPOSURE_BANDS"] else [])
    ++ (if d.mask_safe.isSome then ["MASK_SAFE", "MASK_SAFE_BANDS"] else [])
    ++ (if d.gti.isSome then ["GTI"] else [])
    ++ (if d.counts_off.isSome then ["COUNTS_OFF", "COUNTS_OFF_BANDS"] else [])
    ++ (if d.acceptance.isSome then ["ACCEPTANCE", "ACCEPTANCE_BANDS"] else [])
    ++ (if d.acceptance_off.isSome then
          ["ACCEPTANCE_OFF", "ACCEPTANCE_OFF_BANDS"] else [])).Sublist
      (["PRIMARY"] ++ ["COUNTS", "COUNTS_BANDS"] ++ ["EXPOSURE", "EXPOSURE_BANDS"]
        ++ ["MASK_SAFE", "MASK_SAFE_BANDS"] ++ ["GTI"]
        ++ ["COUNTS_OFF", "COUNTS_OFF_BANDS"] ++ ["ACCEPTANCE", "ACCEPTANCE_BANDS"]
        ++ ["ACCEPTANCE_OFF", "ACCEPTANCE_OFF_BANDS"])
  exact (((((((List.Sublist.refl _).append (sublist_ite _)).append
    (sublist_ite _)).append (sublist_ite _)).append (sublist_ite _)).append
    (sublist_ite _)).append (sublist_ite _)).append (sublist_ite _)

/-- C2: serializing a fully populated MapDataset yields exactly the ordered
block-name list PRIMARY, COUNTS, ..., GTI; a fully populated MapDatasetOnOff
yields the on/off-specific ordered list; and for every dataset, absent
fields omit their blocks while the relative order of present blocks is
preserved (the block list is a sublist of the fully populated list). -/
theorem C2_hdulist_order :
    (∀ d : MapDataset, d.counts.isSome → d.exposure.isSome →
      d.background_model.isSome → d.edisp.isSome → d.psf.isSome →
      d.mask_safe.isSome → d.mask_fit.isSome → d.gti.isSome →
      d.to_hdulist = fullMapDatasetHdus)
    ∧ (∀ d : MapDatasetOnOff, d.counts.isSome → d.counts_off.isSome →
      d.acceptance.isSome → d.acceptance_off.isSome → d.exposure.isSome →
      d.mask_safe.isSome → d.gti.isSome →
      d.to_hdulist = fullOnOffHdus)
    ∧ (∀ d : MapDataset, d.to_hdulist.Sublist fullMapDatasetHdus)
    ∧ (∀ d : MapDatasetOnOff, d.to_hdulist.Sublist fullOnOffHdus) := by
  refine ⟨?_, ?_, mapDatasetHdulistSublist, onOffHdulistSublist⟩
  · intro d h1 h2 h3 h4 h5 h6 h7 h8
    simp [MapDataset.to_hdulist, fullMapDatasetHdus, h1, h2, h3, h4, h5, h6, h7, h8]
  · intro d h1 h2 h3 h4 h5 h6 h7
    simp [MapDatasetOnOff.to_hdulist, fullOnOffHdus, h1, h2, h3, h4, h5, h6, h7]

/-- A concrete 2-bin, 2 by 2 pixel geometry used by concrete instances. -/
def exGeom : Geom := { nE := 2, nY := 2, nX := 2 }

/-- A concrete constant map on the example geometry. -/
def exMap : Map := { geom := exGeom, data := fun _ _ _ => 1 }

/-- A concrete all-true mask on the example geometry. -/
def exMask : BoolMap := { geom := exGeom, data := fun _ _ _ => true }

/-- A concrete good-time-interval table, one hour long. -/
def exGti : GTI := { intervals := [(0, 3600)] }

/-- A concrete background model attached to the fully populated dataset. -/
def exFullBkg : BackgroundModel :=
  { map := exMap, norm := 1, name := "test-bkg", datasets_names := ["test"] }

/-- A concrete fully populated MapDataset. -/
def exFullDataset : MapDataset :=
  { name := "test", counts := some exMap, exposure := some exMap,
    background_model := some exFullBkg,
    edisp := some exMap, psf := some exMap, mask_safe := some exMask,
    mask_fit := some exMask, gti := some exGti, models := [] }

/-- A concrete fully populated MapDatasetOnOff. -/
def exFullOnOff : MapDatasetOnOff :=
  { name := "test-onoff", counts := some exMap, counts_off := some exMap,
    acceptance := some exMap, acceptance_off := some exMap,
    exposure := some exMap, mask_safe := some exMask, gti := some exGti }

/-- C2 witness: the fully populated concrete datasets produce exactly the
documented ordered block lists. -/
theorem C2_hdulist_order_witness :
    exFullDataset.to_hdulist = fullMapDatasetHdus
    ∧ exFullOnOff.to_hdulist = fullOnOffHdus :=
  ⟨C2_hdulist_order.1 exFullDataset rfl rfl rfl rfl rfl rfl rfl rfl,
   C2_hdulist_order.2.1 exFullOnOff rfl rfl rfl rfl rfl rfl rfl⟩

/-- The invalid-state message signalled when no geometry source exists. -/
def geomErrorMsg : String :=
  "either counts map or mask_safe map must be defined"

/-- Modelled from the spec: the evaluation geometry of a dataset
(section 4.1, failure semantics): taken from counts when present, else from
mask_safe; when neither counts nor mask_safe is available an invalid-state
error is signalled instead of a silent default (section 7). -/
def MapDataset._geom (d : MapDataset) : Except String Geom :=
  match d.counts with
  | some c => Except.ok c.geom
  | none =>
    match d.mask_safe with
    | some m => Except.ok m.geom
    | none => Except.error geomErrorMsg

/-- The exposure data of a dataset; an absent exposure contributes zero
(section 7: missing optional fields degrade gracefully). -/
def MapDataset.exposureData (d : MapDataset) : Nat → Nat → Nat → ℚ :=
  match d.exposure with
  | some m => m.data
  | none => fun _ _ _ => 0

/-- Modelled from the spec: predicted counts of one sky-model component
(section 4.1): the flux per true-energy bin folded with the exposure and
the instrument response kernel into each reconstructed-energy bin. -/
def SkyEval.npredData (ev : SkyEval) (exposure : Nat → Nat → Nat → ℚ)
    (e y x : Nat) : ℚ :=
  ∑ et ∈ Finset.range ev.nETrue, ev.kernel et e * ev.flux et y x * exposure et y x

/-- The background-model contribution to predicted counts: the background
rate map scaled by norm, or zero when no background model is attached. -/
def MapDataset.backgroundNpred (d : MapDataset) (e y x : Nat) : ℚ :=
  match d.background_model with
  | some b => b.evaluate e y x
  | none => 0

/-- The data array of the predicted-counts map: the sum, over contributing
sky-model components, of their predicted counts, plus the evaluated
background model; non-contributing components are excluded from the sum. -/
def MapDataset.npredData (d : MapDataset) (e y x : Nat) : ℚ :=
  ((d.models.filter fun ev => ev.contributes).map
      fun ev => ev.npredData d.exposureData e y x).sum
    + d.backgroundNpred e y x

/-- Modelled from the spec: npred (section 4.1): the predicted-counts map
on the evaluation geometry; it fails exactly when the evaluation geometry
cannot be determined. -/
def MapDataset.npred (d : MapDataset) : Except String Map :=
  Except.map (fun g => { geom := g, data := d.npredData }) d._geom

/-- The physical non-negativity assumptions of the data model: sky-model
fluxes, response kernels, exposure, background norm and background rate
are all non-negative quantities. -/
def MapDataset.NonnegInputs (d : MapDataset) : Prop :=
  (∀ ev ∈ d.models, (∀ et e, 0 ≤ ev.kernel et e) ∧ ∀ e y x, 0 ≤ ev.flux e y x)
    ∧ (∀ m : Map, d.exposure = some m → ∀ e y x, 0 ≤ m.data e y x)
    ∧ (∀ b : BackgroundModel, d.background_model = some b →
        0 ≤ b.norm ∧ ∀ e y x, 0 ≤ b.map.data e y x)

theorem MapDataset.exposureData_nonneg (d : MapDataset)
    (h : ∀ m : Map, d.exposure = some m → ∀ e y x, 0 ≤ m.data e y x)
    (e y x : Nat) : 0 ≤ d.exposureData e y x := by
  unfold MapDataset.exposureData
  cases hm : d.exposure with
  | none => simp
  | some m => exact h m hm e y x

/-- C1: for every MapDataset whose physical inputs are non-negative, every
element of the predicted-counts data is non-negative, and hence every
element of the map returned by npred is non-negative. -/
theorem C1_npred_nonneg (d : MapDataset) (h : d.NonnegInputs) :
    (∀ e y x : Nat, 0 ≤ d.npredData e y x)
    ∧ ∀ m : Map, d.npred = Except.ok m → ∀ e y x : Nat, 0 ≤ m.data e y x := by
  obtain ⟨hmodels, hexp, hbkg⟩ := h
  have hdata : ∀ e y x : Nat, 0 ≤ d.npredData e y x := by
    intro e y x
    unfold MapDataset.npredData
    have hsum : 0 ≤ ((d.models.filter fun ev => ev.contributes).map
        fun ev => ev.npredData d.exposureData e y x).sum := by
      apply List.sum_nonneg
      intro q hq
      obtain ⟨ev, hev, rfl⟩ := List.mem_map.mp hq
      obtain ⟨hker, hflux⟩ := hmodels ev (List.mem_of_mem_filter hev)
      unfold SkyEval.npredData
      apply Finset.sum_nonneg
      intro et _
      exact mul_nonneg (mul_nonneg (hker et e) (hflux et y x))
        (d.exposureData_nonneg hexp et y x)
    have hb : 0 ≤ d.backgroundNpred e y x := by
      unfold MapDataset.backgroundNpred
      cases hob : d.background_model with
      | none => simp
      | some b =>
        obtain ⟨hn, hmap⟩ := hbkg b hob
        exact mul_nonneg hn (hmap e y x)
    exact add_nonneg hsum hb
  refine ⟨hdata, fun m hm e y x => ?_⟩
  unfold MapDataset.npred at hm
  cases hg : d._geom with
  | error msg =>
    rw [hg] at hm
    cases hm
  | ok g =>
    rw [hg] at hm
    cases hm
    exact hdata e y x

/-- A concrete dataset with one contributing sky model for the npred
witness. -/
def exNpredDataset : MapDataset :=
  { exFullDataset with
    models := [{ contributes := true, nETrue := 2,
                 flux := fun _ _ _ => 1, kernel := fun _ _ => 1 }] }

/-- C1 witness: the concrete dataset has non-negative inputs and its
predicted counts at pixel (0, 0, 0) are non-negative. -/
theorem C1_npred_nonneg_witness :
    exNpredDataset.NonnegInputs ∧ 0 ≤ exNpredDataset.npredData 0 0 0 := by
  have h : exNpredDataset.NonnegInputs := by
    refine ⟨?_, ?_, ?_⟩
    · intro ev hev
      simp only [exNpredDataset, List.mem_singleton] at hev
      subst hev
      exact ⟨fun _ _ => zero_le_one, fun _ _ _ => zero_le_one⟩
    · intro m hm
      simp only [exNpredDataset, exFullDataset, Option.some.injEq] at hm
      subst hm
      intro e y x
      exact zero_le_one
    · intro b hb
      simp only [exNpredDataset, exFullDataset, Option.some.injEq] at hb
      subst hb
      exact ⟨zero_le_one, fun _ _ _ => zero_le_one⟩
  exact ⟨h, (C1_npred_nonneg exNpredDataset h).1 0 0 0⟩

/-- C6: requesting the evaluation geometry with neither counts nor
mask_safe signals the invalid-state error rather than a default; with at
least one present the geometry is determined and npred succeeds on it. -/
theorem C6_geom_invalid_state (d : MapDataset) :
    (d.counts = none ∧ d.mask_safe = none →
      d._geom = Except.error geomErrorMsg)
    ∧ (d.counts.isSome ∨ d.mask_safe.isSome →
      ∃ g : Geom, d._geom = Except.ok g
        ∧ ∃ m : Map, d.npred = Except.ok m ∧ m.geom = g) := by
  constructor
  · rintro ⟨hc, hm⟩
    unfold MapDataset._geom
    rw [hc, hm]
  · intro hp
    have hg : ∃ g : Geom, d._geom = Except.ok g := by
      unfold MapDataset._geom
      rcases hp with hc | hm
      · obtain ⟨c, hc⟩ := Option.isSome_iff_exists.mp hc
        rw [hc]
        exact ⟨c.geom, rfl⟩
      · cases hco : d.counts with
        | some c => exact ⟨c.geom, rfl⟩
        | none =>
          obtain ⟨mm, hmm⟩ := Option.isSome_iff_exists.mp hm
          rw [hmm]
          exact ⟨mm.geom, rfl⟩
    obtain ⟨g, hg⟩ := hg
    refine ⟨g, hg, { geom := g, data := d.npredData }, ?_, rfl⟩
    unfold MapDataset.npred
    rw [hg]
    rfl

/-- A concrete dataset with no geometry source. -/
def exEmptyDataset : MapDataset :=
  { name := "empty", counts := none, exposure := none,
    background_model := none, edisp := none, psf := none, mask_safe := none,
    mask_fit := none, gti := none, models := [] }

/-- C6 witness: the empty concrete dataset signals the invalid-state
error, and the fully populated one determines its geometry and yields a
predicted-counts map on it. -/
theorem C6_geom_invalid_state_witness :
    exEmptyDataset._geom = Except.error geomErrorMsg
    ∧ ∃ g : Geom, exFullDataset._geom = Except.ok g
      ∧ ∃ m : Map, exFullDataset.npred = Except.ok m ∧ m.geom = g :=
  ⟨(C6_geom_invalid_state exEmptyDataset).1 ⟨rfl, rfl⟩,
   (C6_geom_invalid_state exFullDataset).2 (Or.inl rfl)⟩

/-- Numeric encoding of a boolean, as stored in a serialized block (the
persisted format stores numbers, not booleans). -/
def boolToRat (b : Bool) : ℚ := if b then 1 else 0

/-- Decoding of a stored number back to a boolean: nonzero means true. -/
def ratToBool (q : ℚ) : Bool := decide (q ≠ 0)

/-- A boolean mask encoded as a numeric block for writing. -/
def BoolMap.toNumeric (m : BoolMap) : Map :=
  { geom := m.geom, data := fun e y x => boolToRat (m.data e y x) }

/-- A numeric block decoded back to a boolean mask on reading. -/
def Map.toBoolMap (m : Map) : BoolMap :=
  { geom := m.geom, data := fun e y x => ratToBool (m.data e y x) }

/-- Modelled from the spec: the persisted file layout (section 6): one data
block per populated field in the fixed order of section 4.1; boolean masks
are stored as numeric blocks; the good-time-intervals are stored as a table
of (start, stop) pairs. -/
structure FitsFile where
  counts : Option Map
  exposure : Option Map
  background : Option Map
  edisp : Option Map
  psf : Option Map
  mask_safe : Option Map
  mask_fit : Option Map
  gti : Option (List (ℚ × ℚ))

/-- Modelled from the spec: write serialization (section 4.1): every
present field is stored as its pixel data bound to its geometry; the
background model stores its rate map; boolean masks are stored
numerically. -/
def MapDataset.write (d : MapDataset) : FitsFile :=
  { counts := d.counts
    exposure := d.exposure
    background := Option.map (fun b => b.map) d.background_model
    edisp := d.edisp
    psf := d.psf
    mask_safe := Option.map BoolMap.toNumeric d.mask_safe
    mask_fit := Option.map BoolMap.toNumeric d.mask_fit
    gti := Option.map GTI.intervals d.gti }

/-- Modelled from the spec: read deserialization (section 4.1): every
stored block is restored to the corresponding field; the background block
is wrapped in a fresh background model attached to the dataset; mask
blocks are restored with boolean element type. -/
def MapDataset.read (name : String) (f : FitsFile) : MapDataset :=
  { name := name
    counts := f.counts
    exposure := f.exposure
    background_model := Option.map
      (fun m => { map := m, norm := 1, name := name ++ "-bkg",
                  datasets_names := [name] }) f.background
    edisp := f.edisp
    psf := f.psf
    mask_safe := Option.map Map.toBoolMap f.mask_safe
    mask_fit := Option.map Map.toBoolMap f.mask_fit
    gti := Option.map (fun l => { intervals := l }) f.gti
    models := [] }

theorem toNumeric_toBoolMap (m : BoolMap) : m.toNumeric.toBoolMap = m := by
  cases m with
  | mk g dat =>
    unfold BoolMap.toNumeric Map.toBoolMap
    simp only [BoolMap.mk.injEq, true_and]
    funext e y x
    cases h : dat e y x <;> simp [boolToRat, ratToBool]

theorem mask_roundtrip (o : Option BoolMap) :
    Option.map Map.toBoolMap (Option.map BoolMap.toNumeric o) = o := by
  cases o with
  | none => rfl
  | some m => simp [toNumeric_toBoolMap]

/-- Modelled from the spec: the persisted on/off file layout (sections
4.2 and 6): the base blocks followed by the on/off specific counts_off,
acceptance and acceptance_off blocks; the boolean safe mask is stored
numerically, the good-time-intervals as a table of (start, stop) pairs. -/
structure OnOffFitsFile where
  counts : Option Map
  counts_off : Option Map
  acceptance : Option Map
  acceptance_off : Option Map
  exposure : Option Map
  mask_safe : Option Map
  gti : Option (List (ℚ × ℚ))

/-- Modelled from the spec: write serialization of a MapDatasetOnOff
(sections 4.2 and 6): every present field is stored as its pixel data
bound to its geometry, the boolean safe mask numerically. -/
def MapDatasetOnOff.write (d : MapDatasetOnOff) : OnOffFitsFile :=
  { counts := d.counts
    counts_off := d.counts_off
    acceptance := d.acceptance
    acceptance_off := d.acceptance_off
    exposure := d.exposure
    mask_safe := Option.map BoolMap.toNumeric d.mask_safe
    gti := Option.map GTI.intervals d.gti }

/-- Modelled from the spec: read deserialization of a MapDatasetOnOff
(sections 4.2 and 6): every stored block is restored to the corresponding
field; the safe mask block is restored with boolean element type; an
on/off dataset never carries a background model. -/
def MapDatasetOnOff.read (name : String) (f : OnOffFitsFile) : MapDatasetOnOff :=
  { name := name
    counts := f.counts
    counts_off := f.counts_off
    acceptance := f.acceptance
    acceptance_off := f.acceptance_off
    exposure := f.exposure
    mask_safe := Option.map Map.toBoolMap f.mask_safe
    gti := Option.map (fun l => { intervals := l }) f.gti }

/-- C3: reading back a written MapDataset reproduces counts, exposure,
psf and edisp blocks exactly (pixel data and geometry), reproduces the
background rate map, restores both masks with boolean element type and
identical truth values, and restores the good-time-intervals (hence their
total time) exactly; reading back a written MapDatasetOnOff likewise
reproduces counts, counts_off, acceptance, acceptance_off, exposure, the
boolean safe mask and the good-time-intervals. -/
theorem C3_fits_io_roundtrip :
    (∀ d : MapDataset,
      (MapDataset.read d.name d.write).counts = d.counts
      ∧ (MapDataset.read d.name d.write).exposure = d.exposure
      ∧ (MapDataset.read d.name d.write).edisp = d.edisp
      ∧ (MapDataset.read d.name d.write).psf = d.psf
      ∧ Option.map (fun b => b.map)
          (MapDataset.read d.name d.write).background_model
        = Option.map (fun b => b.map) d.background_model
      ∧ (MapDataset.read d.name d.write).mask_safe = d.mask_safe
      ∧ (MapDataset.read d.name d.write).mask_fit = d.mask_fit
      ∧ (MapDataset.read d.name d.write).gti = d.gti)
    ∧ (∀ d : MapDatasetOnOff,
      (MapDatasetOnOff.read d.name d.write).counts = d.counts
      ∧ (MapDatasetOnOff.read d.name d.write).counts_off = d.counts_off
      ∧ (MapDatasetOnOff.read d.name d.write).acceptance = d.acceptance
      ∧ (MapDatasetOnOff.read d.name d.write).acceptance_off
        = d.acceptance_off
      ∧ (MapDatasetOnOff.read d.name d.write).exposure = d.exposure
      ∧ (MapDatasetOnOff.read d.name d.write).mask_safe = d.mask_safe
      ∧ (MapDatasetOnOff.read d.name d.write).gti = d.gti) := by
  constructor
  · intro d
    refine ⟨rfl, rfl, rfl, rfl, ?_, ?_, ?_, ?_⟩
    · simp only [MapDataset.read, MapDataset.write]
      cases d.background_model <;> rfl
    · exact mask_roundtrip d.mask_safe
    · exact mask_roundtrip d.mask_fit
    · show Option.map (fun l => { intervals := l })
        (Option.map GTI.intervals d.gti) = d.gti
      cases d.gti <;> rfl
  · intro d
    refine ⟨rfl, rfl, rfl, rfl, rfl, ?_, ?_⟩
    · exact mask_roundtrip d.mask_safe
    · show Option.map (fun l => { intervals := l })
        (Option.map GTI.intervals d.gti) = d.gti
      cases d.gti <;> rfl

/-- Modelled from the spec: the fresh unique-name generator used by copy
operations (section 3: copy operations auto-generate a fresh unique name
unless one is supplied; a uuid in the implementation, absent from the
excerpt).  It is modelled as a suffixing function, which provably differs
from its input. -/
def freshName (s : String) : String := s ++ "-copy"

theorem freshName_ne (s : String) : freshName s ≠ s := by
  intro h
  have h2 := congrArg String.length h
  rw [freshName, String.length_append] at h2
  have h5 : ("-copy" : String).length = 5 := rfl
  rw [h5] at h2
  omega

/-- Modelled from the spec (sections 3 and 4.1): copy yields a deep copy
carrying the supplied name, or a freshly generated unique one when none is
supplied; a present background model is copied along and its
datasets_names are pointed at the new dataset name (its own model name is
preserved, as fixed by the test module). -/
def MapDataset.copy (d : MapDataset) (name : Option String) : MapDataset :=
  let n := name.getD (freshName d.name)
  { d with
    name := n
    background_model := Option.map
      (fun b => { b with datasets_names := [n] }) d.background_model }

/-- C4: copy without an explicit name yields a dataset whose name differs
from the source's; copy with an explicit name yields exactly that name;
a present background model is carried over as a copy whose datasets_names
point at the new dataset name, with its model name preserved, and the copy
differs from the source model whenever the source pointed at the source
dataset. -/
theorem C4_copy_names (d : MapDataset) :
    (d.copy none).name ≠ d.name
    ∧ (∀ s : String, (d.copy (some s)).name = s)
    ∧ (∀ b : BackgroundModel, d.background_model = some b →
        ∃ b' : BackgroundModel, (d.copy none).background_model = some b'
          ∧ b'.name = b.name
          ∧ b'.datasets_names = [(d.copy none).name]
          ∧ (b.datasets_names = [d.name] → b' ≠ b)) := by
  refine ⟨freshName_ne d.name, fun s => rfl, fun b hb => ?_⟩
  refine ⟨{ b with datasets_names := [freshName d.name] }, ?_, rfl, rfl, ?_⟩
  · show Option.map _ d.background_model = _
    rw [hb]
    rfl
  · intro hdn heq
    have h2 := congrArg BackgroundModel.datasets_names heq
    simp only [hdn] at h2
    have h3 : freshName d.name = d.name := by
      have := List.head_eq_of_cons_eq h2
      exact this
    exact freshName_ne d.name h3

/-- C4 witness: the fully populated concrete dataset copies as the claim
says; its copied background model points at the fresh name and differs
from the source model. -/
theorem C4_copy_names_witness :
    (exFullDataset.copy none).name ≠ exFullDataset.name
    ∧ (exFullDataset.copy (some "dataset2")).name = "dataset2"
    ∧ ∃ b' : BackgroundModel,
        (exFullDataset.copy none).background_model = some b'
        ∧ b'.name = exFullBkg.name
        ∧ b'.datasets_names = [(exFullDataset.copy none).name]
        ∧ b' ≠ exFullBkg := by
  have h := C4_copy_names exFullDataset
  obtain ⟨b', hb', hname, hdn, hne⟩ := h.2.2 exFullBkg rfl
  exact ⟨h.1, h.2.1 "dataset2", b', hb', hname, hdn, hne rfl⟩

/-- The value of an optional safe mask at a pixel: an absent mask imposes
no restriction (section 7: missing optional fields degrade gracefully). -/
def maskVal (m : Option BoolMap) (e y x : Nat) : Bool :=
  match m with
  | some mm => mm.data e y x
  | none => true

/-- Modelled from the spec (sections 4.1 and 4.2, to_image): collapse of a
map over its energy axis, summing only the bins admitted by the safe mask;
without a mask all energy bins are summed. -/
def sumOverSafe (mask : Option BoolMap) (m : Map) : Map :=
  { geom := m.geom.to_image,
    data := fun _ y x =>
      ∑ e ∈ Finset.range m.geom.nE,
        if maskVal mask e y x then m.data e y x else 0 }

/-- Modelled from the spec (section 4.1, to_image): collapse of a boolean
mask over the energy axis, true wherever some energy bin is true. -/
def BoolMap.collapse (m : BoolMap) : BoolMap :=
  { geom := m.geom.to_image,
    data := fun _ y x => (List.range m.geom.nE).any fun e => m.data e y x }

/-- Modelled from the spec (section 4.1, to_image): collapses the energy
axis, summing counts, background and exposure over the safe-masked bins,
and reduces mask_safe to a 2-D boolean map, true if any energy bin
contributes; fields absent on the source remain absent on the result; the
result carries a fresh name. -/
def MapDataset.to_image (d : MapDataset) : MapDataset :=
  { name := freshName d.name
    counts := Option.map (sumOverSafe d.mask_safe) d.counts
    exposure := Option.map (sumOverSafe d.mask_safe) d.exposure
    background_model := Option.map
      (fun b => { b with map := sumOverSafe d.mask_safe b.map })
      d.background_model
    edisp := none
    psf := none
    mask_safe := Option.map BoolMap.collapse d.mask_safe
    mask_fit := Option.map BoolMap.collapse d.mask_fit
    gti := d.gti
    models := d.models }

/-- Modelled from the spec (section 4.2, to_image): as for the base class,
with acceptance and acceptance_off summed only over safe-masked energy
bins, never naively over all bins. -/
def MapDatasetOnOff.to_image (d : MapDatasetOnOff) : MapDatasetOnOff :=
  { name := freshName d.name
    counts := Option.map (sumOverSafe d.mask_safe) d.counts
    counts_off := Option.map (sumOverSafe d.mask_safe) d.counts_off
    acceptance := Option.map (sumOverSafe d.mask_safe) d.acceptance
    acceptance_off := Option.map (sumOverSafe d.mask_safe) d.acceptance_off
    exposure := Option.map (sumOverSafe d.mask_safe) d.exposure
    mask_safe := Option.map BoolMap.collapse d.mask_safe
    gti := d.gti }

/-- The mixed 2-bin example mask of the spec, data [[[F,T],[T,T]],[[F,F],[T,T]]]
indexed as (energy, y, x). -/
def exMixedMask : BoolMap :=
  { geom := exGeom,
    data := fun e y x =>
      if e = 0 then (if y = 0 then (if x = 0 then false else true) else true)
      else if e = 1 then (if y = 0 then false else true)
      else false }

/-- The expected collapse [[F,T],[T,T]] of the mixed example mask. -/
def exCollapsedData : Nat → Nat → Bool :=
  fun y x => if y = 0 then (if x = 0 then false else true) else true

/-- A concrete dataset carrying only the mixed safe mask. -/
def exMixedDataset : MapDataset :=
  { exEmptyDataset with mask_safe := some exMixedMask }

/-- C5: to_image collapses a present safe mask to a 2-D boolean map on the
image geometry that is true at a pixel exactly when some energy bin is
true there; an all-true mask collapses to an all-true image mask; and the
spec's 2-bin example mask collapses to [[F,T],[T,T]]. -/
theorem C5_to_image_mask_collapse :
    (∀ (d : MapDataset) (m : BoolMap), d.mask_safe = some m →
      ∃ m2 : BoolMap, d.to_image.mask_safe = some m2
        ∧ m2.geom = m.geom.to_image
        ∧ (∀ y x : Nat,
            m2.data 0 y x = true ↔ ∃ e, e < m.geom.nE ∧ m.data e y x = true)
        ∧ ((∀ e y x : Nat, m.data e y x = true) → 0 < m.geom.nE →
            ∀ y x : Nat, m2.data 0 y x = true))
    ∧ (∀ m2 : BoolMap, exMixedDataset.to_image.mask_safe = some m2 →
        ∀ y x : Nat, y < 2 → x < 2 → m2.data 0 y x = exCollapsedData y x) := by
  constructor
  · intro d m hm
    refine ⟨m.collapse, ?_, rfl, ?_, ?_⟩
    · show Option.map _ d.mask_safe = _
      rw [hm]
      rfl
    · intro y x
      simp [BoolMap.collapse, List.any_eq_true, List.mem_range]
    · intro hall hpos y x
      simp only [BoolMap.collapse, List.any_eq_true, List.mem_range]
      exact ⟨0, hpos, hall 0 y x⟩
  · intro m2 hm2 y x hy hx
    have h : m2 = exMixedMask.collapse := by
      have : exMixedDataset.to_image.mask_safe = some exMixedMask.collapse := rfl
      rw [this] at hm2
      exact (Option.some.injEq _ _ ▸ hm2).symm
    subst h
    interval_cases y <;> interval_cases x <;> decide

/-- C5 witness: the mixed example dataset collapses as claimed, and the
collapsed value at pixel (0, 0) is the expected false. -/
theorem C5_to_image_mask_collapse_witness :
    (∃ m2 : BoolMap, exMixedDataset.to_image.mask_safe = some m2
      ∧ m2.geom = exMixedMask.geom.to_image
      ∧ (m2.data 0 0 1 = true ↔
          ∃ e, e < exMixedMask.geom.nE ∧ exMixedMask.data e 0 1 = true))
    ∧ exMixedMask.collapse.data 0 0 0 = exCollapsedData 0 0 := by
  have h := C5_to_image_mask_collapse
  obtain ⟨m2, hm2, hg, hiff, _⟩ := h.1 exMixedDataset exMixedMask rfl
  exact ⟨⟨m2, hm2, hg, hiff 0 1⟩,
    h.2 exMixedMask.collapse rfl 0 0 (by decide) (by decide)⟩

/-- C9: on an on/off dataset with a safe mask, to_image sums acceptance
and acceptance_off only over mask-admitted energy bins; the collapsed
acceptance is unchanged under any modification of the acceptance values on
mask-excluded bins; and without a safe mask all energy bins are summed. -/
theorem C9_onoff_to_image_acceptance (d : MapDatasetOnOff) :
    (∀ (m : BoolMap) (acc : Map), d.mask_safe = some m → d.acceptance = some acc →
      ∃ acc2 : Map, d.to_image.acceptance = some acc2
        ∧ (∀ y x : Nat, acc2.data 0 y x
            = ∑ e ∈ Finset.range acc.geom.nE,
                if m.data e y x then acc.data e y x else 0)
        ∧ (∀ (q : Nat → Nat → Nat → ℚ) (y x : Nat),
            (∀ e : Nat, m.data e y x = true → q e y x = acc.data e y x) →
            acc2.data 0 y x
              = ∑ e ∈ Finset.range acc.geom.nE,
                  if m.data e y x then q e y x else 0))
    ∧ (∀ (m : BoolMap) (accOff : Map), d.mask_safe = some m →
        d.acceptance_off = some accOff →
      ∃ acc2 : Map, d.to_image.acceptance_off = some acc2
        ∧ ∀ y x : Nat, acc2.data 0 y x
            = ∑ e ∈ Finset.range accOff.geom.nE,
                if m.data e y x then accOff.data e y x else 0)
    ∧ (∀ acc : Map, d.mask_safe = none → d.acceptance = some acc →
      ∃ acc2 : Map, d.to_image.acceptance = some acc2
        ∧ ∀ y x : Nat, acc2.data 0 y x
            = ∑ e ∈ Finset.range acc.geom.nE, acc.data e y x) := by
  refine ⟨?_, ?_, ?_⟩
  · intro m acc hm hacc
    refine ⟨sumOverSafe d.mask_safe acc, ?_, ?_, ?_⟩
    · show Option.map _ d.acceptance = _
      rw [hacc]
      rfl
    · intro y x
      simp [sumOverSafe, maskVal, hm]
    · intro q y x hq
      simp only [sumOverSafe, maskVal, hm]
      apply Finset.sum_congr rfl
      intro e _
      cases hme : m.data e y x with
      | false => simp
      | true => simp [hq e hme]
  · intro m accOff hm hacc
    refine ⟨sumOverSafe d.mask_safe accOff, ?_, ?_⟩
    · show Option.map _ d.acceptance_off = _
      rw [hacc]
      rfl
    · intro y x
      simp [sumOverSafe, maskVal, hm]
  · intro acc hm hacc
    refine ⟨sumOverSafe d.mask_safe acc, ?_, ?_⟩
    · show Option.map _ d.acceptance = _
      rw [hacc]
      rfl
    · intro y x
      simp [sumOverSafe, maskVal, hm]

/-- A mask admitting only energy bin 1 of the example geometry. -/
def exBinOneMask : BoolMap :=
  { geom := exGeom, data := fun e _ _ => if e = 0 then false else true }

/-- A concrete constant acceptance_off map of value 2. -/
def exTwoMap : Map := { geom := exGeom, data := fun _ _ _ => 2 }

/-- A concrete on/off dataset with unit acceptance, acceptance_off two and
a safe mask excluding energy bin 0, as in the test module. -/
def exOnOffMixed : MapDatasetOnOff :=
  { name := "onoff-mixed", counts := some exMap, counts_off := some exMap,
    acceptance := some exMap, acceptance_off := some exTwoMap,
    exposure := none, mask_safe := some exBinOneMask, gti := none }

/-- C9 witness: on the concrete on/off dataset the collapsed acceptance at
pixel (0, 0) is 1 (only bin 1 contributes) and the collapsed
acceptance_off is 2. -/
theorem C9_onoff_to_image_acceptance_witness :
    (∃ acc2 : Map, exOnOffMixed.to_image.acceptance = some acc2
      ∧ acc2.data 0 0 0 = 1)
    ∧ (∃ acc2 : Map, exOnOffMixed.to_image.acceptance_off = some acc2
      ∧ acc2.data 0 0 0 = 2) := by
  have h := C9_onoff_to_image_acceptance exOnOffMixed
  obtain ⟨acc2, h1, h2, _⟩ := h.1 exBinOneMask exMap rfl rfl
  obtain ⟨acc3, h3, h4⟩ := h.2.1 exBinOneMask exTwoMap rfl rfl
  refine ⟨⟨acc2, h1, ?_⟩, ⟨acc3, h3, ?_⟩⟩
  · rw [h2 0 0]
    simp [Finset.sum_range_succ, exMap, exBinOneMask, exGeom]
  · rw [h4 0 0]
    simp [Finset.sum_range_succ, exTwoMap, exBinOneMask, exGeom]

/-- Modelled from the spec (section 4.1, stack): the masked sum of two
maps — each input contributes its value only where its own safe mask
admits the bin, so bins excluded by a dataset's safe mask contribute
nothing. -/
def stackAdd (ma mb : Option BoolMap) (a b : Map) : Map :=
  { geom := a.geom,
    data := fun e y x =>
      (if maskVal ma e y x then a.data e y x else 0)
      + (if maskVal mb e y x then b.data e y x else 0) }

/-- Masked stacking lifted to optional maps; a missing side degrades
gracefully (section 7). -/
def stackOptMaps (ma mb : Option BoolMap) :
    Option Map → Option Map → Option Map
  | some a, some b => some (stackAdd ma mb a b)
  | some a, none => some a
  | none, ob => ob

/-- Plain pointwise addition of maps (exposure adds unmasked). -/
def addMaps (a b : Map) : Map :=
  { geom := a.geom, data := fun e y x => a.data e y x + b.data e y x }

/-- Unmasked addition lifted to optional maps. -/
def addOptMaps : Option Map → Option Map → Option Map
  | some a, some b => some (addMaps a b)
  | some a, none => some a
  | none, ob => ob

/-- Union of safe masks: logical OR within the overlap (section 4.1); if
either side is unrestricted the union is unrestricted. -/
def orMasks : Option BoolMap → Option BoolMap → Option BoolMap
  | some a, some b =>
    some { geom := a.geom, data := fun e y x => a.data e y x || b.data e y x }
  | _, _ => none

/-- Union of good-time-interval tables. -/
def stackGti : Option GTI → Option GTI → Option GTI
  | some a, some b => some { intervals := a.intervals ++ b.intervals }
  | some a, none => some a
  | none, ob => ob

/-- Modelled from the spec (section 4.1, stack): stacked background model:
the evaluated background rates of the two inputs, each restricted to its
own safe mask, added; the stacked model carries norm one since the rates
are already evaluated. -/
def stackBackground (ma mb : Option BoolMap) :
    Option BackgroundModel → Option BackgroundModel → Option BackgroundModel
  | some a, some b =>
    some { a with
      norm := 1
      map := ⟨a.map.geom, fun e y x =>
        (if maskVal ma e y x then a.evaluate e y x else 0)
        + (if maskVal mb e y x then b.evaluate e y x else 0)⟩ }
  | some a, none => some a
  | none, ob => ob

/-- Modelled from the spec (section 4.1, stack; section 2): in-place union
of self and other onto self's geometry — counts and background add
restricted by each dataset's safe mask, exposure adds, mask_safe becomes
the union (logical OR) — with the in-place mutation of the receiver
rendered as explicit state passing: the call returns the pair (updated
receiver, other), and the model never writes into the second component. -/
def MapDataset.stack (a b : MapDataset) : MapDataset × MapDataset :=
  ({ a with
      counts := stackOptMaps a.mask_safe b.mask_safe a.counts b.counts
      background_model := stackBackground a.mask_safe b.mask_safe
        a.background_model b.background_model
      exposure := addOptMaps a.exposure b.exposure
      mask_safe := orMasks a.mask_safe b.mask_safe
      gti := stackGti a.gti b.gti },
   b)

/-- The counts_off data of an on/off dataset, zero when absent. -/
def MapDatasetOnOff.countsOffData (d : MapDatasetOnOff) :
    Nat → Nat → Nat → ℚ :=
  match d.counts_off with
  | some m => m.data
  | none => fun _ _ _ => 0

/-- The acceptance data of an on/off dataset, zero when absent. -/
def MapDatasetOnOff.accData (d : MapDatasetOnOff) : Nat → Nat → Nat → ℚ :=
  match d.acceptance with
  | some m => m.data
  | none => fun _ _ _ => 0

/-- The acceptance_off data of an on/off dataset, zero when absent. -/
def MapDatasetOnOff.accOffData (d : MapDatasetOnOff) : Nat → Nat → Nat → ℚ :=
  match d.acceptance_off with
  | some m => m.data
  | none => fun _ _ _ => 0

/-- Modelled from the spec (section 3): the derived on/off scaling
alpha = acceptance / acceptance_off, computed on demand. -/
def MapDatasetOnOff.alphaData (d : MapDatasetOnOff) : Nat → Nat → Nat → ℚ :=
  fun e y x => d.accData e y x / d.accOffData e y x

/-- Modelled from the spec (section 4.2, stack): counts and counts_off add
restricted by each input's safe mask; acceptance accumulates so that the
combined alpha is the counts_off-weighted average of the input alphas
(normalized to unit acceptance, as the test module fixes); exposure adds;
safe-mask handling is identical to the base class.  In-place mutation is
again rendered as explicit state passing. -/
def MapDatasetOnOff.stack (a b : MapDatasetOnOff) :
    MapDatasetOnOff × MapDatasetOnOff :=
  ({ a with
      counts := stackOptMaps a.mask_safe b.mask_safe a.counts b.counts
      counts_off := stackOptMaps a.mask_safe b.mask_safe a.counts_off b.counts_off
      acceptance := Option.map
        (fun m => ⟨m.geom, fun _ _ _ => (1 : ℚ)⟩) a.acceptance
      acceptance_off := Option.map
        (fun m => ⟨m.geom, fun e y x =>
          (a.countsOffData e y x + b.countsOffData e y x)
            / (a.alphaData e y x * a.countsOffData e y x
               + b.alphaData e y x * b.countsOffData e y x)⟩)
        a.acceptance_off
      exposure := addOptMaps a.exposure b.exposure
      mask_safe := orMasks a.mask_safe b.mask_safe
      gti := stackGti a.gti b.gti },
   b)

/-- C7: stacking mutates only the receiver: for matching geometries, every
constituent map of the second dataset (counts, counts_off, acceptance,
exposure, background, masks) is unchanged by the call, for both dataset
variants. -/
theorem C7_stack_not_mutate_other :
    (∀ a b : MapDataset, a._geom = b._geom →
      (a.stack b).2.counts = b.counts
      ∧ (a.stack b).2.exposure = b.exposure
      ∧ (a.stack b).2.background_model = b.background_model
      ∧ (a.stack b).2.mask_safe = b.mask_safe
      ∧ (a.stack b).2.mask_fit = b.mask_fit
      ∧ (a.stack b).2 = b)
    ∧ (∀ a b : MapDatasetOnOff,
        Option.map Map.geom a.counts = Option.map Map.geom b.counts →
      (a.stack b).2.counts = b.counts
      ∧ (a.stack b).2.counts_off = b.counts_off
      ∧ (a.stack b).2.acceptance = b.acceptance
      ∧ (a.stack b).2.acceptance_off = b.acceptance_off
      ∧ (a.stack b).2.exposure = b.exposure
      ∧ (a.stack b).2.mask_safe = b.mask_safe
      ∧ (a.stack b).2 = b) :=
  ⟨fun _ _ _ => ⟨rfl, rfl, rfl, rfl, rfl, rfl⟩,
   fun _ _ _ => ⟨rfl, rfl, rfl, rfl, rfl, rfl, rfl⟩⟩

/-- C7 witness: stacking the concrete datasets onto themselves leaves the
second component untouched. -/
theorem C7_stack_not_mutate_other_witness :
    (exFullDataset.stack exFullDataset).2 = exFullDataset
    ∧ (exFullOnOff.stack exFullOnOff).2 = exFullOnOff :=
  ⟨(C7_stack_not_mutate_other.1 exFullDataset exFullDataset rfl).2.2.2.2.2,
   (C7_stack_not_mutate_other.2 exFullOnOff exFullOnOff rfl).2.2.2.2.2.2⟩

/-- C8: for two MapDatasets with all relevant fields present, the stacked
receiver's counts and background are the masked sums (each input
restricted to its own safe mask, excluded bins contributing nothing), the
exposure is the plain sum, and the safe mask is the logical OR. -/
theorem C8_stack_arithmetic (a b : MapDataset)
    (ca cb ea eb : Map) (ma mb : BoolMap) (ba bb : BackgroundModel)
    (hca : a.counts = some ca) (hcb : b.counts = some cb)
    (hea : a.exposure = some ea) (heb : b.exposure = some eb)
    (hma : a.mask_safe = some ma) (hmb : b.mask_safe = some mb)
    (hba : a.background_model = some ba) (hbb : b.background_model = some bb) :
    (∃ c2 : Map, (a.stack b).1.counts = some c2
      ∧ ∀ e y x : Nat, c2.data e y x
          = (if ma.data e y x then ca.data e y x else 0)
          + (if mb.data e y x then cb.data e y x else 0))
    ∧ (∃ bk2 : BackgroundModel, (a.stack b).1.background_model = some bk2
      ∧ ∀ e y x : Nat, bk2.map.data e y x
          = (if ma.data e y x then ba.evaluate e y x else 0)
          + (if mb.data e y x then bb.evaluate e y x else 0))
    ∧ (∃ e2 : Map, (a.stack b).1.exposure = some e2
      ∧ ∀ e y x : Nat, e2.data e y x = ea.data e y x + eb.data e y x)
    ∧ (∃ m2 : BoolMap, (a.stack b).1.mask_safe = some m2
      ∧ ∀ e y x : Nat, m2.data e y x = (ma.data e y x || mb.data e y x)) := by
  refine ⟨?_, ?_, ?_, ?_⟩
  · refine ⟨stackAdd a.mask_safe b.mask_safe ca cb, ?_, ?_⟩
    · show stackOptMaps a.mask_safe b.mask_safe a.counts b.counts = _
      rw [hca, hcb]
      rfl
    · intro e y x
      simp [stackAdd, maskVal, hma, hmb]
  · refine ⟨{ ba with
      norm := 1
      map := ⟨ba.map.geom, fun e y x =>
        (if maskVal a.mask_safe e y x then ba.evaluate e y x else 0)
        + (if maskVal b.mask_safe e y x then bb.evaluate e y x else 0)⟩ },
      ?_, ?_⟩
    · show stackBackground a.mask_safe b.mask_safe
        a.background_model b.background_model = _
      rw [hba, hbb]
      rfl
    · intro e y x
      simp [maskVal, hma, hmb]
  · refine ⟨addMaps ea eb, ?_, fun e y x => rfl⟩
    show addOptMaps a.exposure b.exposure = _
    rw [hea, heb]
    rfl
  · refine ⟨⟨ma.geom, fun e y x => ma.data e y x || mb.data e y x⟩, ?_, ?_⟩
    · show orMasks a.mask_safe b.mask_safe = _
      rw [hma, hmb]
      rfl
    · intro e y x
      rfl

/-- A concrete constant counts map of value 3. -/
def exThreeMap : Map := { geom := exGeom, data := fun _ _ _ => 3 }

/-- A concrete half-norm background model. -/
def exHalfBkg : BackgroundModel :=
  { map := exMap, norm := 1 / 2, name := "bkg-b", datasets_names := ["b"] }

/-- A concrete stacking receiver. -/
def exStackA : MapDataset :=
  { exEmptyDataset with
    counts := some exThreeMap
    exposure := some exMap
    background_model := some exFullBkg
    mask_safe := some exBinOneMask }

/-- A concrete stacking argument. -/
def exStackB : MapDataset :=
  { exEmptyDataset with
    counts := some exMap
    exposure := some exMap
    background_model := some exHalfBkg
    mask_safe := some exMask }

/-- C8 witness: the concrete stacked receiver's counts obey the masked-sum
formula. -/
theorem C8_stack_arithmetic_witness :
    ∃ c2 : Map, (exStackA.stack exStackB).1.counts = some c2
      ∧ ∀ e y x : Nat, c2.data e y x
          = (if exBinOneMask.data e y x then exThreeMap.data e y x else 0)
          + (if exMask.data e y x then exMap.data e y x else 0) :=
  (C8_stack_arithmetic exStackA exStackB exThreeMap exMap exMap exMap
    exBinOneMask exMask exFullBkg exHalfBkg
    rfl rfl rfl rfl rfl rfl rfl rfl).1

/-- Modelled from the spec (section 4.2 and the cross-variant stacking
test): stacking a MapDatasetOnOff onto a plain MapDataset is accepted; the
on/off background is converted into the receiver's background model as
alpha times counts_off, restricted to the on/off dataset's safe mask, and
added to the receiver's own masked background; counts and exposure stack
as usual. -/
def MapDataset.stackOnOff (d : MapDataset) (o : MapDatasetOnOff) : MapDataset :=
  { d with
    counts := stackOptMaps d.mask_safe o.mask_safe d.counts o.counts
    background_model := Option.map
      (fun b => { b with
        norm := 1
        map := ⟨b.map.geom, fun e y x =>
          (if maskVal d.mask_safe e y x then b.evaluate e y x else 0)
          + (if maskVal o.mask_safe e y x then
              o.alphaData e y x * o.countsOffData e y x else 0)⟩ })
      d.background_model
    exposure := addOptMaps d.exposure o.exposure
    mask_safe := orMasks d.mask_safe o.mask_safe
    gti := stackGti d.gti o.gti }

/-- C10: stacking an on/off dataset onto a plain MapDataset converts the
on/off background into the receiver's background model map as alpha times
counts_off (restricted to the on/off safe mask), on top of the receiver's
own masked background. -/
theorem C10_stack_dataset_onoff (d : MapDataset) (o : MapDatasetOnOff)
    (b : BackgroundModel) (hb : d.background_model = some b) :
    ∃ b2 : BackgroundModel, (d.stackOnOff o).background_model = some b2
      ∧ ∀ e y x : Nat, b2.map.data e y x
          = (if maskVal d.mask_safe e y x then b.evaluate e y x else 0)
          + (if maskVal o.mask_safe e y x then
              o.alphaData e y x * o.countsOffData e y x else 0) := by
  refine ⟨{ b with
    norm := 1
    map := ⟨b.map.geom, fun e y x =>
      (if maskVal d.mask_safe e y x then b.evaluate e y x else 0)
      + (if maskVal o.mask_safe e y x then
          o.alphaData e y x * o.countsOffData e y x else 0)⟩ },
    ?_, fun e y x => rfl⟩
  show Option.map _ d.background_model = _
  rw [hb]
  rfl

/-- A concrete all-zero map. -/
def exZeroMap : Map := { geom := exGeom, data := fun _ _ _ => 0 }

/-- A concrete all-false mask (a freshly created dataset's empty safe
mask). -/
def exFalseMask : BoolMap := { geom := exGeom, data := fun _ _ _ => false }

/-- A concrete constant acceptance_off map of value 5. -/
def exFiveMap : Map := { geom := exGeom, data := fun _ _ _ => 5 }

/-- A concrete all-zero background model. -/
def exZeroBkg : BackgroundModel :=
  { map := exZeroMap, norm := 1, name := "zero-bkg", datasets_names := ["t"] }

/-- A concrete freshly created receiver dataset: zero counts and
background, all-false safe mask. -/
def exStackTarget : MapDataset :=
  { exEmptyDataset with
    counts := some exZeroMap
    background_model := some exZeroBkg
    exposure := some exZeroMap
    mask_safe := some exFalseMask
    gti := some exGti }

/-- A concrete on/off dataset with acceptance 1, acceptance_off 5 and
counts_off 1 everywhere, and an all-true safe mask. -/
def exStackOnOff : MapDatasetOnOff :=
  { name := "onoff", counts := some exZeroMap, counts_off := some exMap,
    acceptance := some exMap, acceptance_off := some exFiveMap,
    exposure := some exZeroMap, mask_safe := some exMask, gti := some exGti }

/-- C10 witness: with acceptance 1, acceptance_off 5 and counts_off 1
everywhere, the stacked background map equals 0.2 at the sample pixel. -/
theorem C10_stack_dataset_onoff_witness :
    ∃ b2 : BackgroundModel,
      (exStackTarget.stackOnOff exStackOnOff).background_model = some b2
      ∧ b2.map.data 0 0 0 = 1 / 5 := by
  obtain ⟨b2, hb2, hval⟩ :=
    C10_stack_dataset_onoff exStackTarget exStackOnOff exZeroBkg rfl
  refine ⟨b2, hb2, ?_⟩
  rw [hval 0 0 0]
  simp [maskVal, exStackTarget, exStackOnOff, exFalseMask, exMask,
    MapDatasetOnOff.alphaData, MapDatasetOnOff.accData,
    MapDatasetOnOff.accOffData, MapDatasetOnOff.countsOffData,
    BackgroundModel.evaluate, exZeroBkg, exZeroMap, exMap, exFiveMap,
    exEmptyDataset]

end Gammapy
